import Mathlib

/-!
Verification development for the neutron-query-relayer core.

The Go source is shallowly embedded: pure computations become Lean
functions; every network / codec / keyring call whose outcome the source
merely branches on is an explicit environment field (an `Except` value or
an oracle function), so each Go function becomes a total Lean function of
its environment and explicit state. Machine integers (`uint64`, `uint32`)
are modelled as `Nat`; Go byte slices as `List Nat`; a Go
`(value, error)` pair as `Except String value` (or, where the source can
return both components nil or both set, as an explicit pair).
-/

namespace Spec2Proof

/-! ## Embedding of internal/submit/tx_sender.go -/

/-- ABCI query response envelope: `res.Response.{Code, Log, Value}`. -/
structure AbciResponse where
  code : Nat
  log : String
  value : List Nat
deriving Repr, DecidableEq

/-- Result of `BroadcastTxSync` / `BroadcastTxAsync`: `res.{Code, Log}`. -/
structure TxResponse where
  code : Nat
  log : String
deriving Repr, DecidableEq

/-- Result of `BroadcastTxCommit`: `res.CheckTx.{Code, Log}` and `res.DeliverTx.{Code, Log}`. -/
structure CommitResponse where
  checkTxCode : Nat
  checkTxLog : String
  deliverTxCode : Nat
  deliverTxLog : String
deriving Repr, DecidableEq

/-- `config.TxBroadcastType`: a configured string compared against the three
known constants in `Send`'s switch; `unknown s` is any other configured
string, falling to the switch's `default` branch. -/
inductive BroadcastMode where
  | syncMode
  | asyncMode
  | commitMode
  | unknown (s : String)
deriving Repr, DecidableEq

/-- `txtypes.SimulateResponse` as far as `calculateGas` inspects it:
`simRes.GasInfo` may be nil (`none`) or carry `GasUsed`. -/
structure SimulateResponse where
  gasInfoGasUsed : Option Nat
deriving Repr, DecidableEq

/-- Protobuf wire encoding of `txtypes.SimulateRequest{TxBytes: bz}.Marshal()`:
field 1, wire type 2 (tag byte 0x0A), length-delimited. Modelled for
payloads shorter than 128 bytes, which covers every concrete input used
here; the claims depend only on this map being a definite function. -/
def simulateRequestMarshal (bz : List Nat) : List Nat :=
  10 :: bz.length :: bz

/-- Environment of `calculateGas` / `buildSimulationTx`: the outcome of each
external call the source makes, in source order. `abci` is the
`ABCIQueryWithOptions` call on path `/cosmos.tx.v1beta1.Service/Simulate`,
as a function of the request data (`none` models a nil `[]byte`);
`parseSimulateResponse` is `simRes.Unmarshal` on the response value. -/
structure CalcGasEnv where
  gasAdjustment : ℚ
  buildUnsignedResult : Except String Unit
  setSignaturesResult : Except String Unit
  encodeResult : Except String (List Nat)
  abci : Option (List Nat) → Except String AbciResponse
  parseSimulateResponse : List Nat → Except String SimulateResponse

/-- `buildSimulationTx` (tx_sender.go lines 211-236). Returns the
`([]byte, error)` pair as written in the source: note the encoder-failure
branch returns `(nil, nil)` — no bytes and no error. -/
def buildSimulationTx (env : CalcGasEnv) : Option (List Nat) × Option String :=
  match env.buildUnsignedResult with
  | .error e => (none, some e)
  | .ok _ =>
    match env.setSignaturesResult with
    | .error e => (none, some e)
    | .ok _ =>
      match env.encodeResult with
      | .error _ => (none, none)
      | .ok bz => (some (simulateRequestMarshal bz), none)

/-- Go's `uint64(x)` conversion of a non-negative float truncates toward
zero; over ℚ with a non-negative product this is the floor. The source
computes `uint64(txf.GasAdjustment() * float64(simRes.GasInfo.GasUsed))`. -/
def gasConversion (adj : ℚ) (gasUsed : Nat) : Nat :=
  (⌊adj * (gasUsed : ℚ)⌋).toNat

/-- `calculateGas` (tx_sender.go lines 182-207). First component: the
`(uint64, error)` result (0 is the Go zero value on error). Second
component: the `Data` passed to the Simulate ABCI call, when that call was
reached (`some none` records a call made with nil data). -/
def calculateGas (env : CalcGasEnv) : Except String Nat × Option (Option (List Nat)) :=
  match buildSimulationTx env with
  | (_, some e) => (.error e, none)
  | (simulation, none) =>
    match env.abci simulation with
    | .error e => (.error e, some simulation)
    | .ok res =>
      match env.parseSimulateResponse res.value with
      | .error e => (.error e, some simulation)
      | .ok simRes =>
        match simRes.gasInfoGasUsed with
        | none =>
          (.error ("no result in simulation response with log=" ++ res.log ++
            " code=" ++ toString res.code), some simulation)
        | some gasUsed => (.ok (gasConversion env.gasAdjustment gasUsed), some simulation)

/-- `authtypes.BaseAccount` as far as `Send` uses it. -/
structure Account where
  accountNumber : Nat
  sequence : Nat
deriving Repr, DecidableEq

/-- Environment of `Send` (tx_sender.go lines 66-125): the outcome of each
external step, in source order. `queryAccountResult` folds the whole
`queryAccount` helper (lines 128-160); `buildTxBzResult` folds
`buildTxBz` (lines 162-180); the three broadcast fields are the respective
RPC calls. -/
structure SendEnv where
  queryAccountResult : Except String Account
  calcEnv : CalcGasEnv
  buildTxBzResult : Except String (List Nat)
  broadcastTxSync : Except String TxResponse
  broadcastTxAsync : Except String TxResponse
  broadcastTxCommit : Except String CommitResponse

/-- The gas amount `Send` sets on the factory (`txf.WithGas(gasNeeded)`,
lines 81-83) before building the final transaction, when that point is
reached. -/
def sendGasForBuild (env : SendEnv) : Option Nat :=
  match env.queryAccountResult with
  | .error _ => none
  | .ok _ => ((calculateGas env.calcEnv).1).toOption

/-- `Send` (tx_sender.go lines 66-125). -/
def send (mode : BroadcastMode) (env : SendEnv) : Except String Unit :=
  match env.queryAccountResult with
  | .error e => .error e
  | .ok _ =>
    match (calculateGas env.calcEnv).1 with
    | .error e => .error e
    | .ok _ =>
      match env.buildTxBzResult with
      | .error e => .error ("could not build tx bz: " ++ e)
      | .ok _ =>
        match mode with
        | .syncMode =>
          match env.broadcastTxSync with
          | .error e => .error ("error broadcasting sync transaction: " ++ e)
          | .ok res =>
            if res.code = 0 then .ok ()
            else .error ("error broadcasting sync transaction with log=" ++ res.log)
        | .asyncMode =>
          match env.broadcastTxAsync with
          | .error e => .error ("error broadcasting async transaction: " ++ e)
          | .ok res =>
            if res.code = 0 then .ok ()
            else .error ("error broadcasting async transaction with log=" ++ res.log)
        | .commitMode =>
          match env.broadcastTxCommit with
          | .error e => .error ("error broadcasting commit transaction: " ++ e)
          | .ok res =>
            if res.checkTxCode = 0 ∧ res.deliverTxCode = 0 then .ok ()
            else .error ("error broadcasting commit transaction with checktx log=" ++
              res.checkTxLog ++ " and deliverytx log=" ++ res.deliverTxLog)
        | .unknown s => .error ("not implemented transaction send type: " ++ s)

/-! ## Embedding of internal/relay/relayer.go -/

/-- Errors a `Storage.GetLastQueryHeight` call can return: the distinguished
`leveldb.ErrNotFound`, or any other storage failure. -/
inductive StoreErr where
  | errNotFound
  | ioFailure (msg : String)
deriving Repr, DecidableEq

/-- The `relay.Storage` interface as the relayer uses it: get / set of the
last query height over a store state `σ`, plus `Close`. -/
structure Storage (σ : Type) where
  getHeight : σ → Nat → Except StoreErr Nat
  setHeight : σ → Nat → Nat → Except String σ
  closeStore : σ → Except String Unit

/-- The leveldb-backed store: an association list from query ID to height,
where `Get` of an absent key is `leveldb.ErrNotFound` and `Put` prepends
(newest entry wins on lookup). -/
def heightLookup : List (Nat × Nat) → Nat → Option Nat
  | [], _ => none
  | (k, v) :: rest, id => if k = id then some v else heightLookup rest id

/-- Concrete `Storage` instance over the association-list store. -/
def levelDB : Storage (List (Nat × Nat)) where
  getHeight s id :=
    match heightLookup s id with
    | some h => .ok h
    | none => .error .errNotFound
  setHeight s id h := .ok ((id, h) :: s)
  closeStore _ := .ok ()

/-- `getLastQueryHeight` (relayer.go lines 165-178). Third component: the
list of `SetLastQueryHeight` calls issued, as `(queryID, height)` pairs. -/
def getLastQueryHeight {σ : Type} (st : Storage σ) (s : σ) (queryID : Nat) :
    Except String Nat × σ × List (Nat × Nat) :=
  match st.getHeight s queryID with
  | .error .errNotFound =>
    match st.setHeight s queryID 0 with
    | .error e =>
      (.error ("failed to set a 0 last height for an unitilialised query: " ++ e), s,
        [(queryID, 0)])
    | .ok s' => (.ok 0, s', [(queryID, 0)])
  | .error (.ioFailure e) => (.error ("failed to check query in storage: " ++ e), s, [])
  | .ok height => (.ok height, s, [])

/-- `neutrontypes.TransactionsFilterItem.Value` is `interface\x7b\x7d`; the values
that actually occur are JSON numbers and strings, and the synthetic height
triple carries a `uint64`. -/
inductive FilterValue where
  | natVal (n : Nat)
  | strVal (s : String)
deriving Repr, DecidableEq

/-- One `\x7bfield, op, value\x7d` triple of a `neutrontypes.TransactionsFilter`. -/
structure TransactionsFilterItem where
  field : String
  op : String
  value : FilterValue
deriving Repr, DecidableEq

/-- Constant `TxHeight` (relayer.go line 19). -/
def TxHeight : String := "tx.height"

/-- `relay.MessageTX`: query ID plus the raw transactions-filter JSON string. -/
structure MessageTX where
  queryId : Nat
  transactionsFilter : String
deriving Repr, DecidableEq

/-- Environment of the TX processing path: `parseFilter` is
`json.Unmarshal` of the filter string; `processAndSubmit` is
`txProcessor.ProcessAndSubmit` returning the last processed height;
`searchErr` is `txQuerier.Err()` observed after `SearchTransactions`. -/
structure TxPathEnv where
  parseFilter : String → Except String (List TransactionsFilterItem)
  processAndSubmit : Except String Nat
  searchErr : Option String

/-- `buildTxQuery` (relayer.go lines 123-136). Returns the effective filter
(or error), the store state after the call, and the set calls issued. -/
def buildTxQuery {σ : Type} (env : TxPathEnv) (st : Storage σ) (s : σ) (m : MessageTX) :
    Except String (List TransactionsFilterItem) × σ × List (Nat × Nat) :=
  match getLastQueryHeight st s m.queryId with
  | (.error e, s', w) => (.error ("could not get last query height: " ++ e), s', w)
  | (.ok queryLastHeight, s', w) =>
    match env.parseFilter m.transactionsFilter with
    | .error e => (.error ("could not unmarshal transactions filter: " ++ e), s', w)
    | .ok params =>
      (.ok (params ++ [⟨TxHeight, "gt", .natVal queryLastHeight⟩]), s', w)

/-- `processMessageTX` (relayer.go lines 141-162). Returns the error
outcome, the store state after the call, and the set calls issued. -/
def processMessageTX {σ : Type} (env : TxPathEnv) (st : Storage σ) (s : σ) (m : MessageTX) :
    Except String Unit × σ × List (Nat × Nat) :=
  match buildTxQuery env st s m with
  | (.error e, s', w) => (.error ("failed to build tx query params: " ++ e), s', w)
  | (.ok _queryParams, s', w) =>
    match env.processAndSubmit with
    | .error e => (.error ("failed to process txs: " ++ e), s', w)
    | .ok lastProcessedHeight =>
      match env.searchErr with
      | some e => (.error ("failed to query txs: " ++ e), s', w)
      | none =>
        match st.setHeight s' m.queryId lastProcessedHeight with
        | .error e =>
          (.error ("failed to save last height of query: " ++ e), s',
            w ++ [(m.queryId, lastProcessedHeight)])
        | .ok s'' => (.ok (), s'', w ++ [(m.queryId, lastProcessedHeight)])

/-- The two context values observable in `Run`'s dispatch: the context
passed by the caller of `Run`, and a fresh `context.Background()`. -/
inductive CtxKind where
  | callerCtx
  | backgroundCtx
deriving Repr, DecidableEq

/-- Which processor `Run` invokes for a dequeued query and the context it
passes (relayer.go lines 79-86); `noneAction` is a query type matching
neither switch case (no processing, `err` stays nil). -/
inductive DispatchAction where
  | kvAction (ctxUsed : CtxKind) (queryId : Nat)
  | txAction (ctxUsed : CtxKind) (queryId : Nat)
  | noneAction
deriving Repr, DecidableEq

/-- `neutrontypes.InterchainQueryTypeKV`. -/
def InterchainQueryTypeKV : String := "kv"

/-- `neutrontypes.InterchainQueryTypeTX`. -/
def InterchainQueryTypeTX : String := "tx"

/-- `neutrontypes.RegisteredQuery` as the dispatch loop reads it. -/
structure RegisteredQuery where
  id : Nat
  queryType : String
  transactionsFilter : String
deriving Repr, DecidableEq

/-- The switch on `query.QueryType` in `Run` (relayer.go lines 79-86):
the KV case calls `processMessageKV(ctx, msg)` with the caller's context;
the TX case calls `processMessageTX(context.Background(), msg)`. -/
def runDispatch (query : RegisteredQuery) : DispatchAction :=
  if query.queryType = InterchainQueryTypeKV then .kvAction .callerCtx query.id
  else if query.queryType = InterchainQueryTypeTX then .txAction .backgroundCtx query.id
  else .noneAction

/-- `stop` (relayer.go lines 101-115), as a function of the outcome of
`storage.Close()`. -/
def relayerStop (closeResult : Except String Unit) : Except String Unit :=
  match closeResult with
  | .error _ => .error "error occurred while stopping relayer, see recent logs for more info"
  | .ok _ => .ok ()

/-- One observable step of `Run`'s select loop (relayer.go lines 64-97). -/
inductive RunStep where
  | processed (action : DispatchAction)
  | stopped (result : Except String Unit)
deriving Repr

/-- One iteration of `Run`: on a cancelled context the `ctx.Done()` case
returns `r.stop()` (closing the store); otherwise the default case either
spins on an empty queue or dispatches the dequeued query. -/
def runIteration (cancelled : Bool) (closeResult : Except String Unit)
    (task : Option RegisteredQuery) : RunStep :=
  if cancelled then .stopped (relayerStop closeResult)
  else
    match task with
    | none => .processed .noneAction
    | some query => .processed (runDispatch query)

/-! ## Embedding of the Proofer (src/unnamed/part_001, `proof_impl.GetBalance`) -/

/-- `proof.StorageValue`: one proven key/value pair. Source field names are
`StoragePrefix`, `Key`, `Value`, `Proofs`. -/
structure StorageValue where
  storagePfx : String
  key : List Nat
  value : List Nat
  proofs : List (List Nat)
deriving Repr, DecidableEq

/-- UTF-8 bytes of a Go string (the `[]byte(denom)` conversion). -/
def stringToBytes (s : String) : List Nat :=
  s.toUTF8.toList.map (fun b => b.toNat)

/-- cosmos-sdk `banktypes.CreateAccountBalancesPrefix`: the balances store
namespace byte 0x02 followed by the length-prefixed address bytes
(`address.MustLengthPrefix`). -/
def createAccountBalancesPre (addr : List Nat) : List Nat :=
  2 :: addr.length :: addr

/-- cosmos-sdk `banktypes.StoreKey`. -/
def bankStoreKey : String := "bank"

/-- Modelled from the spec: `QueryTendermintProof` (the Chain Reader) is not
under src/ — only its caller `GetBalance` is. Per spec §4.1 and §6, the
reader issues a read-only state query with proof options at a specific
height, where a requested height of 0 means "latest" and any positive
height means exactly that height, and it returns the value bytes, the
proof path, and the height actually served; RPC/ABCI failure (including a
non-zero response code) is returned as an error. `valueAt` / `proofAt`
give the chain's state and proofs as functions of (height, store key,
key); `rpcErr` injects a reader failure. -/
structure ChainReader where
  latestHeight : Nat
  valueAt : Nat → String → List Nat → List Nat
  proofAt : Nat → String → List Nat → List (List Nat)
  rpcErr : Option String

/-- Modelled from the spec: the reader call
`querier.QueryTendermintProof(ctx, inputHeight, storeKey, key)` returning
`(*StorageValue, height, error)` — the proven key/value pair at the served
height (the requested height when positive, the latest height when 0). -/
def queryTendermintProof (r : ChainReader) (inputHeight : Int) (storeKey : String)
    (key : List Nat) : Except String (StorageValue × Nat) :=
  match r.rpcErr with
  | some e => .error e
  | none =>
    let served := if 0 < inputHeight then inputHeight.toNat else r.latestHeight
    .ok (⟨storeKey, key, r.valueAt served storeKey key, r.proofAt served storeKey key⟩, served)

/-- Environment of `GetBalance`: the bech32 decoder
(`sdk.GetFromBech32(addr, chainPrefix)` as a function of address and
prefix) and the Chain Reader. -/
structure ProoferEnv where
  getFromBech32 : String → String → Except String (List Nat)
  reader : ChainReader

/-- `GetBalance` (src/unnamed/part_001 lines 12-26): decode the address,
derive the balances key for the denom, query the tendermint proof, and
return the single proven `StorageValue` with the served height. -/
def getBalance (env : ProoferEnv) (inputHeight : Nat) (chainPfx addr denom : String) :
    Except String (List StorageValue × Nat) :=
  match env.getFromBech32 addr chainPfx with
  | .error e => .error e
  | .ok bytesAddress =>
    let key := createAccountBalancesPre bytesAddress ++ stringToBytes denom
    match queryTendermintProof env.reader (Int.ofNat inputHeight) bankStoreKey key with
    | .error e => .error ("failed to query tendermint proof for balances: " ++ e)
    | .ok (value, height) => .ok ([value], height)

/-! ## Concrete environments used by witnesses and counterexamples -/

/-- A gas-calculation environment in which every external step succeeds:
adjustment 3/2, simulated gas 100. -/
def calcEnvOK : CalcGasEnv where
  gasAdjustment := 3 / 2
  buildUnsignedResult := .ok ()
  setSignaturesResult := .ok ()
  encodeResult := .ok [1, 2]
  abci _ := .ok ⟨0, "", [9]⟩
  parseSimulateResponse _ := .ok ⟨some 100⟩

/-- A send environment in which every external step succeeds. -/
def sendEnvOK : SendEnv where
  queryAccountResult := .ok ⟨7, 42⟩
  calcEnv := calcEnvOK
  buildTxBzResult := .ok [3]
  broadcastTxSync := .ok ⟨0, ""⟩
  broadcastTxAsync := .ok ⟨0, ""⟩
  broadcastTxCommit := .ok ⟨0, "", 0, ""⟩

/-- Like `sendEnvOK`, but the async broadcast call is accepted by the node
(no transport error) and returns code 1. -/
def c2AsyncEnv : SendEnv :=
  { sendEnvOK with broadcastTxAsync := .ok ⟨1, "execution failed"⟩ }

/-! ## C2 -/

/-- C2 counterexample: under Async mode the node accepts the submission
call — the RPC returns a response rather than a transport error — yet
`Send` inspects the response code and reports failure, refuting the
claim's "success purely on acceptance, with no code check beyond
acceptance". -/
theorem c2_async_checks_code_counterexample :
    c2AsyncEnv.broadcastTxAsync = .ok ⟨1, "execution failed"⟩ ∧
    send .asyncMode c2AsyncEnv =
      .error "error broadcasting async transaction with log=execution failed" := by
  exact ⟨rfl, rfl⟩

/-- C2 amended: once account query, gas calculation and transaction build
succeed, `Send` returns success under Sync iff the sync response code is
0, under Async iff the async response code is 0 (a code check is
performed in Async mode as well), and under Commit iff both the CheckTx
and the DeliverTx codes are 0; on a non-zero code the returned error
embeds the chain-reported log string verbatim. -/
theorem c2_broadcast_mode_semantics (env : SendEnv)
    (hacc : ∃ a, env.queryAccountResult = .ok a)
    (hgas : ∃ g, (calculateGas env.calcEnv).1 = .ok g)
    (hbz : ∃ b, env.buildTxBzResult = .ok b) :
    (∀ res, env.broadcastTxSync = .ok res →
      (send .syncMode env = .ok () ↔ res.code = 0) ∧
      (res.code ≠ 0 → send .syncMode env =
        .error ("error broadcasting sync transaction with log=" ++ res.log))) ∧
    (∀ res, env.broadcastTxAsync = .ok res →
      (send .asyncMode env = .ok () ↔ res.code = 0) ∧
      (res.code ≠ 0 → send .asyncMode env =
        .error ("error broadcasting async transaction with log=" ++ res.log))) ∧
    (∀ res, env.broadcastTxCommit = .ok res →
      (send .commitMode env = .ok () ↔ (res.checkTxCode = 0 ∧ res.deliverTxCode = 0)) ∧
      (¬(res.checkTxCode = 0 ∧ res.deliverTxCode = 0) → send .commitMode env =
        .error ("error broadcasting commit transaction with checktx log=" ++
          res.checkTxLog ++ " and deliverytx log=" ++ res.deliverTxLog))) := by
  obtain ⟨a, ha⟩ := hacc
  obtain ⟨g, hg⟩ := hgas
  obtain ⟨b, hb⟩ := hbz
  refine ⟨?_, ?_, ?_⟩ <;> intro res hres
  · constructor
    · by_cases hc : res.code = 0 <;> simp [send, ha, hg, hb, hres, hc]
    · intro hc; simp [send, ha, hg, hb, hres, hc]
  · constructor
    · by_cases hc : res.code = 0 <;> simp [send, ha, hg, hb, hres, hc]
    · intro hc; simp [send, ha, hg, hb, hres, hc]
  · constructor
    · by_cases hc : res.checkTxCode = 0 ∧ res.deliverTxCode = 0 <;>
        simp [send, ha, hg, hb, hres, hc]
    · intro hc; simp [send, ha, hg, hb, hres, hc]

/-- C2 witness: the amended broadcast-mode semantics applied to the
all-success environment, whose sync response code is 0. -/
theorem c2_witness : send .syncMode sendEnvOK = .ok () := by
  have h := c2_broadcast_mode_semantics sendEnvOK ⟨⟨7, 42⟩, rfl⟩ ⟨_, rfl⟩ ⟨[3], rfl⟩
  exact ((h.1 ⟨0, ""⟩ rfl).1).mpr rfl

/-! ## C7 -/

/-- C7 counterexample: `Send`, invoked with a broadcast mode other than
Sync, Async or Commit, returns the unknown-mode condition as an ordinary
per-call error (the switch's default branch), refuting the claim that
`Send` never reports this condition per call. -/
theorem c7_unknown_mode_per_call_counterexample :
    send (.unknown "broken") sendEnvOK =
      .error "not implemented transaction send type: broken" := by
  exact rfl

/-- C7 amended: an unrecognized broadcast mode reaching `Send` (after the
account query, gas calculation and transaction build succeed) is reported
as an ordinary per-call error "not implemented transaction send type:
<mode>"; no startup-fatal handling of the unknown mode exists in the
sender. -/
theorem c7_unknown_mode_error (env : SendEnv) (s : String)
    (hacc : ∃ a, env.queryAccountResult = .ok a)
    (hgas : ∃ g, (calculateGas env.calcEnv).1 = .ok g)
    (hbz : ∃ b, env.buildTxBzResult = .ok b) :
    send (.unknown s) env = .error ("not implemented transaction send type: " ++ s) := by
  obtain ⟨a, ha⟩ := hacc
  obtain ⟨g, hg⟩ := hgas
  obtain ⟨b, hb⟩ := hbz
  simp [send, ha, hg, hb]

/-- C7 witness: the amended unknown-mode behaviour at a concrete
environment and mode string. -/
theorem c7_witness :
    send (.unknown "weird") sendEnvOK =
      .error "not implemented transaction send type: weird" := by
  exact c7_unknown_mode_error sendEnvOK "weird" ⟨⟨7, 42⟩, rfl⟩ ⟨_, rfl⟩ ⟨[3], rfl⟩

/-! ## C3 -/

/-- Like `calcEnvOK`, but the simulation reports 3 units of gas used, so the
adjusted product 3/2 * 3 = 9/2 is not an integer. -/
def c3Env : CalcGasEnv :=
  { calcEnvOK with parseSimulateResponse := fun _ => .ok ⟨some 3⟩ }

/-- C3 counterexample: with gasAdjustment 3/2 and simulated gasUsed 3, the
code computes `uint64(1.5 * 3.0) = 4` (Go's float-to-integer conversion
truncates toward zero), while `ceil(gasAdjustment * gasUsed) = 5` — the
computed gas is not the ceiling. -/
theorem c3_gas_truncates_counterexample :
    (calculateGas c3Env).1 = .ok 4 ∧
    ⌈c3Env.gasAdjustment * ((3 : Nat) : ℚ)⌉ = 5 ∧ (4 : Nat) ≠ 5 := by
  have hprod : c3Env.gasAdjustment * ((3 : Nat) : ℚ) = 9 / 2 := by
    rw [show c3Env.gasAdjustment = 3 / 2 from rfl]
    push_cast
    ring
  have hgc : gasConversion c3Env.gasAdjustment 3 = 4 := by
    unfold gasConversion
    rw [hprod]
    have h4 : ⌊(9 : ℚ) / 2⌋ = 4 := by norm_num
    rw [h4]
    rfl
  refine ⟨?_, ?_, by decide⟩
  · calc (calculateGas c3Env).1 = .ok (gasConversion c3Env.gasAdjustment 3) := rfl
      _ = .ok 4 := by rw [hgc]
  · rw [hprod, Int.ceil_eq_iff]
    norm_num

/-- C3 amended: for every simulated gasUsed and configured gasAdjustment,
the gas amount computed by `calculateGas` — and set on the factory for the
final transaction build — equals the truncation toward zero of
gasAdjustment * gasUsed (the floor, for a non-negative product), not the
ceiling; determinism under identical inputs holds since the computation is
a pure function of its inputs. -/
theorem c3_gas_truncation (env : CalcGasEnv) (bz : List Nat) (res : AbciResponse) (g : Nat)
    (hb : env.buildUnsignedResult = .ok ()) (hs : env.setSignaturesResult = .ok ())
    (he : env.encodeResult = .ok bz)
    (ha : env.abci (some (simulateRequestMarshal bz)) = .ok res)
    (hp : env.parseSimulateResponse res.value = .ok ⟨some g⟩) :
    (calculateGas env).1 = .ok ((⌊env.gasAdjustment * (g : ℚ)⌋).toNat) ∧
    ∀ senv : SendEnv, senv.calcEnv = env → (∃ a, senv.queryAccountResult = .ok a) →
      sendGasForBuild senv = some ((⌊env.gasAdjustment * (g : ℚ)⌋).toNat) := by
  have hbst : buildSimulationTx env = (some (simulateRequestMarshal bz), none) := by
    simp [buildSimulationTx, hb, hs, he]
  have h1 : (calculateGas env).1 = .ok ((⌊env.gasAdjustment * (g : ℚ)⌋).toNat) := by
    simp [calculateGas, hbst, ha, hp, gasConversion]
  refine ⟨h1, ?_⟩
  rintro senv hce ⟨a, hacc⟩
  simp [sendGasForBuild, hacc, hce, h1, Except.toOption]

/-- C3 witness: the truncation theorem applied to the all-success
environment (adjustment 3/2, gasUsed 100) evaluates to 150. -/
theorem c3_witness : (calculateGas calcEnvOK).1 = .ok 150 := by
  have h := (c3_gas_truncation calcEnvOK [1, 2] ⟨0, "", [9]⟩ 100 rfl rfl rfl rfl rfl).1
  have hv : (⌊calcEnvOK.gasAdjustment * ((100 : Nat) : ℚ)⌋).toNat = 150 := by
    have hprod : calcEnvOK.gasAdjustment * ((100 : Nat) : ℚ) = 150 := by
      rw [show calcEnvOK.gasAdjustment = 3 / 2 from rfl]
      push_cast
      ring
    rw [hprod]
    have h150 : ⌊(150 : ℚ)⌋ = 150 := by norm_num
    rw [h150]
    rfl
  rw [h, hv]

/-! ## C8 -/

/-- Like `calcEnvOK`, but the Simulate endpoint reports a non-zero response
code while still returning an unmarshallable body with gas info. -/
def c8Env : CalcGasEnv :=
  { calcEnvOK with abci := fun _ => .ok ⟨5, "insufficient fees", [9]⟩ }

/-- C8 counterexample: the Simulate ABCI call returns response code 5, yet
`calculateGas` succeeds, because the source never inspects
`res.Response.Code` — a non-zero response code alone is not sufficient for
the call to fail. -/
theorem c8_nonzero_code_not_checked_counterexample :
    c8Env.abci (some (simulateRequestMarshal [1, 2])) =
      .ok ⟨5, "insufficient fees", [9]⟩ ∧
    (calculateGas c8Env).1 = .ok (gasConversion c8Env.gasAdjustment 100) := by
  exact ⟨rfl, rfl⟩

/-- C8 amended: `calculateGas` returns an error whenever the simulation
endpoint call errors, whenever unmarshalling the response fails, or
whenever the response omits gas info (and in that last case the error
message echoes the response's log and code); the response code itself is
never checked, so a non-zero code with parsable gas info does not cause
failure. -/
theorem c8_calculate_gas_errors (env : CalcGasEnv) (d : Option (List Nat))
    (hq : buildSimulationTx env = (d, none)) :
    (∀ e, env.abci d = .error e → (calculateGas env).1 = .error e) ∧
    (∀ res e, env.abci d = .ok res → env.parseSimulateResponse res.value = .error e →
      (calculateGas env).1 = .error e) ∧
    (∀ res, env.abci d = .ok res → env.parseSimulateResponse res.value = .ok ⟨none⟩ →
      (calculateGas env).1 =
        .error ("no result in simulation response with log=" ++ res.log ++
          " code=" ++ toString res.code)) := by
  refine ⟨?_, ?_, ?_⟩
  · intro e hab
    simp [calculateGas, hq, hab]
  · intro res e hab hp
    simp [calculateGas, hq, hab, hp]
  · intro res hab hp
    simp [calculateGas, hq, hab, hp]

/-- Like `calcEnvOK`, but the Simulate RPC call itself fails. -/
def c8ErrEnv : CalcGasEnv :=
  { calcEnvOK with abci := fun _ => .error "rpc down" }

/-- C8 witness: the error-propagation theorem applied to an environment
whose Simulate endpoint errors. -/
theorem c8_witness : (calculateGas c8ErrEnv).1 = .error "rpc down" := by
  exact (c8_calculate_gas_errors c8ErrEnv (some (simulateRequestMarshal [1, 2]))
    rfl).1 "rpc down" rfl

/-! ## C10 -/

/-- Like `calcEnvOK`, but the transaction encoder fails while building the
simulation transaction. -/
def c10Env : CalcGasEnv :=
  { calcEnvOK with encodeResult := .error "encoder failed" }

/-- C10: when the transaction encoder fails, `buildSimulationTx` returns
`(nil, nil)` — nil bytes together with a nil error — so `calculateGas`
does not surface the encoding failure: it issues the Simulate ABCI call
with nil data and, when the endpoint and unmarshalling succeed, completes
with a gas value and no error. -/
theorem c10_encoder_failure_swallowed (env : CalcGasEnv) (e : String)
    (res : AbciResponse) (g : Nat)
    (hb : env.buildUnsignedResult = .ok ()) (hs : env.setSignaturesResult = .ok ())
    (he : env.encodeResult = .error e)
    (ha : env.abci none = .ok res)
    (hp : env.parseSimulateResponse res.value = .ok ⟨some g⟩) :
    buildSimulationTx env = (none, none) ∧
    (calculateGas env).2 = some none ∧
    (calculateGas env).1 = .ok (gasConversion env.gasAdjustment g) := by
  have hbst : buildSimulationTx env = (none, none) := by
    simp [buildSimulationTx, hb, hs, he]
  refine ⟨hbst, ?_, ?_⟩ <;> simp [calculateGas, hbst, ha, hp]

/-- C10 witness: the encoder-failure theorem at a concrete environment
whose encoder errors while everything downstream succeeds. -/
theorem c10_witness :
    buildSimulationTx c10Env = (none, none) ∧
    (calculateGas c10Env).2 = some none ∧
    (calculateGas c10Env).1 = .ok (gasConversion c10Env.gasAdjustment 100) := by
  exact c10_encoder_failure_swallowed c10Env "encoder failed" ⟨0, "", [9]⟩ 100
    rfl rfl rfl rfl rfl

/-! ## C4 -/

/-- C4: for a query ID absent from the Height Store, the first
`getLastQueryHeight` call persists height 0 (exactly one set call) and
returns `(0, no error)`; the second call returns `(0, no error)` without
performing another write; and — over any storage backend — a "not found"
get result followed by a successful init write yields `(0, no error)`,
never surfacing "not found" as an error. -/
theorem c4_idempotent_height_init (s : List (Nat × Nat)) (id : Nat)
    (habsent : heightLookup s id = none) :
    getLastQueryHeight levelDB s id = (.ok 0, (id, 0) :: s, [(id, 0)]) ∧
    getLastQueryHeight levelDB ((id, 0) :: s) id = (.ok 0, (id, 0) :: s, []) ∧
    (∀ (σ : Type) (st : Storage σ) (t t' : σ) (qid : Nat),
      st.getHeight t qid = .error .errNotFound → st.setHeight t qid 0 = .ok t' →
      (getLastQueryHeight st t qid).1 = .ok 0) := by
  refine ⟨?_, ?_, ?_⟩
  · simp [getLastQueryHeight, levelDB, habsent]
  · simp [getLastQueryHeight, levelDB, heightLookup]
  · intro σ st t t' qid hget hset
    simp [getLastQueryHeight, hget, hset]

/-- C4 witness: height initialization for the never-seen query ID 7 on the
empty store, then the second call on the resulting store. -/
theorem c4_witness :
    getLastQueryHeight levelDB ([] : List (Nat × Nat)) 7 = (.ok 0, [(7, 0)], [(7, 0)]) ∧
    getLastQueryHeight levelDB [(7, 0)] 7 = (.ok 0, [(7, 0)], []) := by
  have h := c4_idempotent_height_init [] 7 rfl
  exact ⟨h.1, h.2.1⟩

/-! ## C5 -/

/-- C5: when the message's transactions filter parses to the triple list F,
the effective filter built by `buildTxQuery` is exactly F with the single
synthetic triple (tx.height, gt, stored last height) appended at the end,
the stored height defaulting to 0 when the query ID has never been seen. -/
theorem c5_filter_append (env : TxPathEnv) (s : List (Nat × Nat)) (m : MessageTX)
    (F : List TransactionsFilterItem)
    (hp : env.parseFilter m.transactionsFilter = .ok F) :
    (buildTxQuery env levelDB s m).1 =
      .ok (F ++ [⟨TxHeight, "gt", .natVal ((heightLookup s m.queryId).getD 0)⟩]) := by
  cases h : heightLookup s m.queryId <;>
    simp [buildTxQuery, getLastQueryHeight, levelDB, h, hp]

/-- A TX-path environment whose filter string parses to the single triple
(message.action, eq, "transfer") and whose downstream steps succeed. -/
def c5Env : TxPathEnv where
  parseFilter _ := .ok [⟨"message.action", "eq", .strVal "transfer"⟩]
  processAndSubmit := .ok 0
  searchErr := none

/-- C5 witness: first run (empty store, no stored height) with filter
[(message.action, eq, "transfer")] yields the effective filter
[(message.action, eq, "transfer"), (tx.height, gt, 0)]. -/
theorem c5_witness :
    (buildTxQuery c5Env levelDB [] ⟨1, "[]"⟩).1 =
      .ok [⟨"message.action", "eq", .strVal "transfer"⟩,
           ⟨TxHeight, "gt", .natVal 0⟩] := by
  have h := c5_filter_append c5Env [] ⟨1, "[]"⟩
    [⟨"message.action", "eq", .strVal "transfer"⟩] rfl
  simpa using h

/-! ## C1 -/

/-- C1: during one TX processing cycle over the leveldb-backed store, if the
filter parse, the proof processing/submission, or the transaction search
reports an error, `processMessageTX` returns an error, every set call it
issued is the lazy `(queryId, 0)` initialization, and the stored height
for the query ID afterwards is its prior value (or 0 if the ID had never
been seen). -/
theorem c1_no_height_persist_on_error (env : TxPathEnv) (s : List (Nat × Nat))
    (m : MessageTX)
    (herr : (∃ e, env.parseFilter m.transactionsFilter = .error e) ∨
            (∃ e, env.processAndSubmit = .error e) ∨
            (∃ e, env.searchErr = some e)) :
    (∃ e, (processMessageTX env levelDB s m).1 = .error e) ∧
    (∀ p ∈ (processMessageTX env levelDB s m).2.2, p = (m.queryId, 0)) ∧
    heightLookup (processMessageTX env levelDB s m).2.1 m.queryId =
      some ((heightLookup s m.queryId).getD 0) := by
  rcases hl : heightLookup s m.queryId with _ | h0 <;>
    rcases hp : env.parseFilter m.transactionsFilter with e1 | F <;>
      rcases hps : env.processAndSubmit with e2 | h2 <;>
        rcases hse : env.searchErr with _ | e3 <;>
          simp [processMessageTX, buildTxQuery, getLastQueryHeight, levelDB,
            heightLookup, hl, hp, hps, hse] at herr ⊢

/-- A TX-path environment whose submission step fails. -/
def c1Env : TxPathEnv where
  parseFilter _ := .ok []
  processAndSubmit := .error "submit failed"
  searchErr := none

/-- C1 witness: with a stored height of 11 for query ID 3 and a failing
submission, the cycle errors, issues no set call at all, and the stored
height stays 11. -/
theorem c1_witness :
    (∃ e, (processMessageTX c1Env levelDB [(3, 11)] ⟨3, "[]"⟩).1 = .error e) ∧
    (processMessageTX c1Env levelDB [(3, 11)] ⟨3, "[]"⟩).2.2 = [] ∧
    heightLookup (processMessageTX c1Env levelDB [(3, 11)] ⟨3, "[]"⟩).2.1 3 = some 11 := by
  have h := c1_no_height_persist_on_error c1Env [(3, 11)] ⟨3, "[]"⟩
    (.inr (.inl ⟨"submit failed", rfl⟩))
  refine ⟨h.1, ?_, by simpa using h.2.2⟩
  have hw : (processMessageTX c1Env levelDB [(3, 11)] ⟨3, "[]"⟩).2.2 = [] := rfl
  exact hw

/-! ## C6 -/

/-- C6 counterexample: `Run`'s dispatch invokes the TX processing path with
a fresh `context.Background()`, not the caller's context — refuting "the
TX processing path receives the caller's (cancellable) context". -/
theorem c6_tx_background_ctx_counterexample :
    runDispatch ⟨1, InterchainQueryTypeTX, "[]"⟩ = .txAction .backgroundCtx 1 ∧
    CtxKind.backgroundCtx ≠ CtxKind.callerCtx := by
  exact ⟨rfl, by decide⟩

/-- C6 amended: the dispatch loop passes the caller's context to the KV
path, but the TX path is invoked with a fresh background context (so its
calls are not bounded by the context passed to Run); on cancellation the
loop's iteration returns `stop`, which reports success exactly when
closing the Height Store succeeded and otherwise returns the stopping
error. -/
theorem c6_dispatch_contexts (q : RegisteredQuery) (closeResult : Except String Unit)
    (task : Option RegisteredQuery) :
    (q.queryType = InterchainQueryTypeKV → runDispatch q = .kvAction .callerCtx q.id) ∧
    (q.queryType = InterchainQueryTypeTX → runDispatch q = .txAction .backgroundCtx q.id) ∧
    runIteration true closeResult task = .stopped (relayerStop closeResult) ∧
    (closeResult = .ok () → relayerStop closeResult = .ok ()) ∧
    (∀ e, closeResult = .error e → relayerStop closeResult =
      .error "error occurred while stopping relayer, see recent logs for more info") := by
  refine ⟨?_, ?_, ?_, ?_, ?_⟩
  · intro h
    simp [runDispatch, h]
  · intro h
    simp [runDispatch, h, InterchainQueryTypeKV, InterchainQueryTypeTX]
  · simp [runIteration]
  · intro h
    simp [relayerStop, h]
  · intro e h
    simp [relayerStop, h]

/-- C6 witness: the dispatch-context theorem at a concrete TX query, a
successful close result and an empty task slot. -/
theorem c6_witness :
    runDispatch ⟨2, InterchainQueryTypeTX, "[]"⟩ = .txAction .backgroundCtx 2 ∧
    runIteration true (.ok ()) none = .stopped (relayerStop (.ok ())) ∧
    relayerStop (.ok ()) = .ok () := by
  have h := c6_dispatch_contexts ⟨2, InterchainQueryTypeTX, "[]"⟩ (.ok ()) none
  exact ⟨h.2.1 rfl, h.2.2.1, h.2.2.2.1 rfl⟩

/-! ## C9 -/

/-- C9: when the Chain Reader does not fail, `GetBalance` on an address
that decodes successfully under the given chain prefix returns exactly one
`StorageValue` — whose key is the account-balances prefix of the decoded
address bytes concatenated with the denom bytes — together with the height
actually served by the reader, which equals the requested height whenever
it was positive; and when bech32 decoding fails, `GetBalance` returns that
error and no values. -/
theorem c9_get_balance_shape (env : ProoferEnv) (inputHeight : Nat)
    (chainPfx addr denom : String)
    (hrpc : env.reader.rpcErr = none) :
    (∀ addrBytes, env.getFromBech32 addr chainPfx = .ok addrBytes →
      ∃ sv : StorageValue,
        getBalance env inputHeight chainPfx addr denom =
          .ok ([sv], if 0 < inputHeight then inputHeight else env.reader.latestHeight) ∧
        sv.key = createAccountBalancesPre addrBytes ++ stringToBytes denom) ∧
    (∀ e, env.getFromBech32 addr chainPfx = .error e →
      getBalance env inputHeight chainPfx addr denom = .error e) := by
  constructor
  · intro addrBytes hdec
    have hq : getBalance env inputHeight chainPfx addr denom =
        .ok ([⟨bankStoreKey,
               createAccountBalancesPre addrBytes ++ stringToBytes denom,
               env.reader.valueAt
                 (if 0 < inputHeight then inputHeight else env.reader.latestHeight)
                 bankStoreKey (createAccountBalancesPre addrBytes ++ stringToBytes denom),
               env.reader.proofAt
                 (if 0 < inputHeight then inputHeight else env.reader.latestHeight)
                 bankStoreKey (createAccountBalancesPre addrBytes ++ stringToBytes denom)⟩],
             if 0 < inputHeight then inputHeight else env.reader.latestHeight) := by
      simp only [getBalance, hdec, queryTendermintProof, hrpc]
      by_cases hpos : 0 < inputHeight <;>
        simp [hpos, Int.ofNat_pos]
    exact ⟨_, hq, rfl⟩
  · intro e hdec
    simp [getBalance, hdec]

/-- A concrete Chain Reader serving constant state at latest height 55. -/
def c9Reader : ChainReader where
  latestHeight := 55
  valueAt _ _ _ := [1]
  proofAt _ _ _ := [[2]]
  rpcErr := none

/-- A concrete Proofer environment: one address decodes to bytes [7, 8]
under the prefix "cosmos"; everything else fails bech32 decoding. -/
def c9Env : ProoferEnv where
  getFromBech32 a p :=
    if a = "cosmos1abc" ∧ p = "cosmos" then .ok [7, 8]
    else .error "decoding bech32 failed"
  reader := c9Reader

/-- C9 witness: a balance query for the decodable address at requested
height 100 returns one `StorageValue` keyed by the balances key for denom
"token", served exactly at height 100. -/
theorem c9_witness :
    ∃ sv : StorageValue,
      getBalance c9Env 100 "cosmos" "cosmos1abc" "token" = .ok ([sv], 100) ∧
      sv.key = createAccountBalancesPre [7, 8] ++ stringToBytes "token" := by
  have h := (c9_get_balance_shape c9Env 100 "cosmos" "cosmos1abc" "token" rfl).1
    [7, 8] (by simp [c9Env])
  simpa using h

end Spec2Proof
